import Mathlib

/-!
Verification of the RCC clock-configuration engine of an STM32F40x HAL
(`src/rcc.rs`).

Modelling conventions:

* `u32` arithmetic is modelled on `Nat` with an explicit `% u32Mod`
  (`u32Mod = 2 ^ 32`) at every operation that can overflow (the PLL
  multiplication `vco * pll_n` and the addition in `enable_pll`); this is the
  two's-complement wrap-around semantics of a release build, the mode embedded
  firmware of this kind is compiled in.  Operations that cannot overflow
  (divisions, comparisons) are plain `Nat` operations.
* A division by zero in Rust aborts the process; `build` therefore aborts
  explicitly when a stored `pll_m` or `pll_p` is zero, exactly where the Rust
  division `(vco * pll_n) / pll_p` would trap.
* `assert!` failures and `panic!()` calls are modelled as an `Except.error`
  carrying an `AbortReason` naming the failing check (one constructor per
  `assert!`/`panic` site in `build`).
* Each register write performed by `build` is recorded as a `WriteEvent` in
  program order, so `build` returns the trace of writes done before the abort
  (on failure) or the full trace (on success) together with the result.
* The device-crate `Reg::write` used throughout `rcc.rs` is a whole-register
  write: every field not set by the closure takes its *reset* value.
  `applyEvent` implements exactly that.  Reset values are the hardware ones:
  `RCC_CFGR` and `FLASH_ACR` reset to `0`, `RCC_PLLCFGR` resets to
  `0x24003010`, i.e. `PLLM = 16`, `PLLN = 192`, `PLLP = 0b00`, `PLLSRC = 0`,
  `PLLQ = 4`.
* The `Hertz` newtype is elided: frequencies are the wrapped `Nat`.
-/

namespace Stm32Rcc

/-- `2 ^ 32`, the modulus of `u32` arithmetic. -/
def u32Mod : Nat := 4294967296

/-- Clock source (`rcc.rs` lines 173-176): the 16 MHz internal oscillator, or
an external oscillator carrying a caller-supplied frequency in Hz. -/
inductive ClockSource where
  | HSI
  | HSE (freq : Nat)
  deriving DecidableEq

/-- The frequency a source feeds into the clock tree (`rcc.rs` lines 244-247
and 237-239): 16 MHz for HSI, the carried value for HSE. -/
def sourceFreq : ClockSource → Nat
  | ClockSource.HSI => 16000000
  | ClockSource.HSE f => f

/-- Builder state (`rcc.rs` lines 179-190). -/
structure CFGRBuilder where
  source : ClockSource
  pll : Option (Nat × Nat × Nat × Nat)
  ahb_prescale : Option Nat
  apb1_prescale : Option Nat
  apb2_prescale : Option Nat
  deriving DecidableEq

/-- The default builder produced by `RccExt::constrain` (`rcc.rs` lines
25-31): HSI source, no PLL, no prescalers. -/
def constrainCfgr : CFGRBuilder :=
  { source := ClockSource.HSI, pll := none, ahb_prescale := none,
    apb1_prescale := none, apb2_prescale := none }

/-- `CFGRBuilder::source` (`rcc.rs` lines 195-198); named `set_source` here
because the field projection already uses the name `source`. -/
def CFGRBuilder.set_source (b : CFGRBuilder) (s : ClockSource) : CFGRBuilder :=
  { b with source := s }

/-- `CFGRBuilder::enable_pll` (`rcc.rs` lines 201-210): computes `pll_m` from
the *currently set* source (8 for HSI, `(freq + 1_999_999) / 2_000_000`, a
ceiling division, for HSE — the `u32` addition wraps) and stores
`(m, n, p, q)`. -/
def CFGRBuilder.enable_pll (b : CFGRBuilder) (pll_n pll_p pll_q : Nat) : CFGRBuilder :=
  let pll_m := match b.source with
    | ClockSource.HSI => 8
    | ClockSource.HSE pll_input_freq => ((pll_input_freq + 1999999) % u32Mod) / 2000000
  { b with pll := some (pll_m, pll_n, pll_p, pll_q) }

/-- `CFGRBuilder::ahb_prescale` (`rcc.rs` lines 213-216); `set_` prefixed
because the field projection already uses the name. -/
def CFGRBuilder.set_ahb_prescale (b : CFGRBuilder) (scale : Nat) : CFGRBuilder :=
  { b with ahb_prescale := some scale }

/-- `CFGRBuilder::apb1_prescale` (`rcc.rs` lines 219-222). -/
def CFGRBuilder.set_apb1_prescale (b : CFGRBuilder) (scale : Nat) : CFGRBuilder :=
  { b with apb1_prescale := some scale }

/-- `CFGRBuilder::apb2_prescale` (`rcc.rs` lines 225-228). -/
def CFGRBuilder.set_apb2_prescale (b : CFGRBuilder) (scale : Nat) : CFGRBuilder :=
  { b with apb2_prescale := some scale }

/-- The sysclk computation at the top of `build` (`rcc.rs` lines 234-248).
With the PLL enabled, `vco = source_freq / pll_m` and the result is
`(vco * pll_n) / pll_p`, the `u32` multiplication wrapping; without the PLL it
is the raw source frequency.  (The Rust divisions trap when `pll_m` or
`pll_p` is zero; `build` models that abort separately, before using this
value.) -/
def CFGRBuilder.sysclkFreq (b : CFGRBuilder) : Nat :=
  match b.pll with
  | some (pll_m, pll_n, pll_p, _pll_q) =>
      let vco := sourceFreq b.source / pll_m
      ((vco * pll_n) % u32Mod) / pll_p
  | none => sourceFreq b.source

/-- AHB prescaler bit codes (`rcc.rs` lines 254-265); `none` models the
`panic!("Invalid ahb_prescale value (HPRE)")` arm. -/
def ahbBits (x : Nat) : Option Nat :=
  if x = 1 then some 0b0000
  else if x = 2 then some 0b1000
  else if x = 4 then some 0b1001
  else if x = 8 then some 0b1010
  else if x = 16 then some 0b1011
  else if x = 64 then some 0b1100
  else if x = 128 then some 0b1101
  else if x = 256 then some 0b1110
  else if x = 512 then some 0b1111
  else none

/-- APB prescaler bit codes, used by both the APB1 match (`rcc.rs` lines
285-292) and the textually identical APB2 match (lines 309-316); `none`
models the `panic!` arm. -/
def apbBits (x : Nat) : Option Nat :=
  if x = 1 then some 0b000
  else if x = 2 then some 0b100
  else if x = 4 then some 0b101
  else if x = 8 then some 0b110
  else if x = 16 then some 0b111
  else none

/-- `pll_p` bit codes (`rcc.rs` lines 370-376); `none` models the `panic!`
arm (unreachable after the `pll_p` assert). -/
def pllPBits (p : Nat) : Option Nat :=
  if p = 2 then some 0b00
  else if p = 4 then some 0b01
  else if p = 6 then some 0b10
  else if p = 8 then some 0b11
  else none

/-- The flash wait-state selection (`rcc.rs` lines 330-345), a pure function
of `hclk_freq` with inclusive upper bounds. -/
def flashLatencyBits (hclk_freq : Nat) : Nat :=
  if hclk_freq ≤ 30000000 then 0b000
  else if hclk_freq ≤ 60000000 then 0b001
  else if hclk_freq ≤ 90000000 then 0b010
  else if hclk_freq ≤ 120000000 then 0b011
  else if hclk_freq ≤ 150000000 then 0b100
  else 0b101

/-- One register write performed by `build`, identified by target register,
target field and the value passed to `.bits()` (or the variant selected).
`cfgrPpre2` is the CFGR field the hardware reserves for the APB2 prescaler;
the source never emits it (that is claim C2's defect). -/
inductive WriteEvent where
  | cfgrHpre (bits : Nat)
  | cfgrPpre1 (bits : Nat)
  | cfgrPpre2 (bits : Nat)
  | cfgrSw (bits : Nat)
  | acrLatency (bits : Nat)
  | pllcfgrSrc (external : Bool)
  | pllcfgrM (bits : Nat)
  | pllcfgrN (bits : Nat)
  | pllcfgrP (bits : Nat)
  | pllcfgrQ (bits : Nat)
  deriving DecidableEq

/-- One `assert!`/`panic!`/trap site of `build`, in source order. -/
inductive AbortReason where
  | divByZero
  | invalidAhb
  | hclkTooHigh
  | invalidApb1
  | pclk1TooHigh
  | invalidApb2
  | pclk2TooHigh
  | pllMOut
  | pllNOut
  | pllPOut
  | pllQOut
  | vcoOut
  deriving DecidableEq

/-- Frozen clock record (`rcc.rs` lines 410-423).  `ppre1`/`ppre2` hold the
APB prescale *values* cast `as u8` (`rcc.rs` lines 302 and 326), not bit
codes. -/
structure Clocks where
  hclk : Nat
  pclk1 : Nat
  pclk2 : Nat
  ppre1 : Nat
  ppre2 : Nat
  sysclk : Nat
  deriving DecidableEq

/-- The AHB block of `build` (`rcc.rs` lines 251-279): map the prescale value
to bits (panicking on an invalid value), divide, assert the 168 MHz ceiling.
On success, returns `(hclk_freq, ahb_prescale_bits)`; the caller emits the
`cfgr.write(hpre)` event. -/
def ahbStage (sysclk_freq : Nat) (pres : Option Nat) : Except AbortReason (Nat × Nat) :=
  let ahb_prescale := pres.getD 1
  match ahbBits ahb_prescale with
  | none => Except.error AbortReason.invalidAhb
  | some ahb_prescale_bits =>
      let hclk_freq := sysclk_freq / ahb_prescale
      if hclk_freq ≤ 168000000 then Except.ok (hclk_freq, ahb_prescale_bits)
      else Except.error AbortReason.hclkTooHigh

/-- The APB1 block of `build` (`rcc.rs` lines 282-303): bits, divide, assert
the 42 MHz ceiling.  Returns `(apb1_freq, apb1_prescale_bits)`. -/
def apb1Stage (sysclk_freq : Nat) (pres : Option Nat) : Except AbortReason (Nat × Nat) :=
  let apb1_prescale := pres.getD 1
  match apbBits apb1_prescale with
  | none => Except.error AbortReason.invalidApb1
  | some apb1_prescale_bits =>
      let apb1_freq := sysclk_freq / apb1_prescale
      if apb1_freq ≤ 42000000 then Except.ok (apb1_freq, apb1_prescale_bits)
      else Except.error AbortReason.pclk1TooHigh

/-- The APB2 block of `build` (`rcc.rs` lines 306-327): bits, divide, assert
the 84 MHz ceiling.  Returns `(apb2_freq, apb2_prescale_bits)`. -/
def apb2Stage (sysclk_freq : Nat) (pres : Option Nat) : Except AbortReason (Nat × Nat) :=
  let apb2_prescale := pres.getD 1
  match apbBits apb2_prescale with
  | none => Except.error AbortReason.invalidApb2
  | some apb2_prescale_bits =>
      let apb2_freq := sysclk_freq / apb2_prescale
      if apb2_freq ≤ 84000000 then Except.ok (apb2_freq, apb2_prescale_bits)
      else Except.error AbortReason.pclk2TooHigh

/-- The PLL block of `build` (`rcc.rs` lines 348-386).  Note the source
order: the `pllcfgr.write(pllsrc)` happens *first* (lines 350-353), then
`vco_freq` is computed (lines 356-359), then the five validation asserts run
(lines 362-367), and only then are the four coefficient fields written
(lines 379-383) followed by `cfgr.write(sw = PLL)` (line 386).  Returns the
trace of writes this block performed (also on abort). -/
def pllStage (src : ClockSource) (pll_m pll_n pll_p pll_q : Nat) :
    List WriteEvent × Except AbortReason Unit :=
  let src_write := match src with
    | ClockSource.HSI => WriteEvent.pllcfgrSrc false
    | ClockSource.HSE _ => WriteEvent.pllcfgrSrc true
  let vco_freq := match src with
    | ClockSource.HSI => ((16000000 / pll_m) * pll_n) % u32Mod
    | ClockSource.HSE freq => ((freq / pll_m) * pll_n) % u32Mod
  if 2 ≤ pll_m ∧ pll_m ≤ 63 then
    if 50 ≤ pll_n ∧ pll_n ≤ 432 then
      if pll_p = 2 ∨ pll_p = 4 ∨ pll_p = 6 ∨ pll_p = 8 then
        if 2 ≤ pll_q ∧ pll_q ≤ 15 then
          if 100000000 ≤ vco_freq ∧ vco_freq ≤ 432000000 then
            match pllPBits pll_p with
            | none => ([src_write], Except.error AbortReason.pllPOut)
            | some pll_p_bits =>
                ([src_write,
                  WriteEvent.pllcfgrM (pll_m % 256),
                  WriteEvent.pllcfgrN (pll_n % 65536),
                  WriteEvent.pllcfgrP pll_p_bits,
                  WriteEvent.pllcfgrQ (pll_q % 256),
                  WriteEvent.cfgrSw 2], Except.ok ())
          else ([src_write], Except.error AbortReason.vcoOut)
        else ([src_write], Except.error AbortReason.pllQOut)
      else ([src_write], Except.error AbortReason.pllPOut)
    else ([src_write], Except.error AbortReason.pllNOut)
  else ([src_write], Except.error AbortReason.pllMOut)

/-- Does the sysclk computation of `build` trap on a division by zero
(`rcc.rs` lines 237-242)?  True exactly when the PLL is enabled with a zero
`pll_m` or `pll_p`. -/
def pllZeroTrap : Option (Nat × Nat × Nat × Nat) → Bool
  | some (pll_m, _, pll_p, _) => pll_m = 0 || pll_p = 0
  | none => false

/-- `CFGRBuilder::build` (`rcc.rs` lines 231-403), returning the trace of
register writes performed (in program order) and either the abort reason or
the `Clocks` record.  The leading `pllZeroTrap` check models the Rust
division traps in the sysclk computation (lines 237-242), which fire before
anything else when a stored `pll_m` or `pll_p` is zero. -/
def CFGRBuilder.build (b : CFGRBuilder) : List WriteEvent × Except AbortReason Clocks :=
  if pllZeroTrap b.pll then
    ([], Except.error AbortReason.divByZero)
  else
    let sysclk_freq := b.sysclkFreq
    match ahbStage sysclk_freq b.ahb_prescale with
    | Except.error r => ([], Except.error r)
    | Except.ok (hclk_freq, ahb_prescale_bits) =>
      match apb1Stage sysclk_freq b.apb1_prescale with
      | Except.error r => ([WriteEvent.cfgrHpre ahb_prescale_bits], Except.error r)
      | Except.ok (pclk1_freq, apb1_prescale_bits) =>
        match apb2Stage sysclk_freq b.apb2_prescale with
        | Except.error r =>
            ([WriteEvent.cfgrHpre ahb_prescale_bits,
              WriteEvent.cfgrPpre1 apb1_prescale_bits], Except.error r)
        | Except.ok (pclk2_freq, apb2_prescale_bits) =>
          let pre := [WriteEvent.cfgrHpre ahb_prescale_bits,
            WriteEvent.cfgrPpre1 apb1_prescale_bits,
            WriteEvent.cfgrPpre1 apb2_prescale_bits,
            WriteEvent.acrLatency (flashLatencyBits hclk_freq)]
          let clocks : Clocks :=
            { hclk := hclk_freq, pclk1 := pclk1_freq, pclk2 := pclk2_freq,
              ppre1 := (b.apb1_prescale.getD 1) % 256,
              ppre2 := (b.apb2_prescale.getD 1) % 256,
              sysclk := sysclk_freq }
          match b.pll with
          | some (pll_m, pll_n, pll_p, pll_q) =>
              match pllStage b.source pll_m pll_n pll_p pll_q with
              | (ptr, Except.error r) => (pre ++ ptr, Except.error r)
              | (ptr, Except.ok _) => (pre ++ ptr, Except.ok clocks)
          | none =>
              let sw := match b.source with
                | ClockSource.HSI => 0
                | ClockSource.HSE _ => 1
              (pre ++ [WriteEvent.cfgrSw sw], Except.ok clocks)

/-- The fields of `RCC_CFGR` touched by `build` (plus `ppre2`, the field the
hardware reserves for the APB2 prescaler, which the source never writes). -/
structure CFGR where
  hpre : Nat
  ppre1 : Nat
  ppre2 : Nat
  sw : Nat
  deriving DecidableEq

/-- `RCC_CFGR` resets to `0x00000000`. -/
def CFGR.reset : CFGR := { hpre := 0, ppre1 := 0, ppre2 := 0, sw := 0 }

/-- The fields of `RCC_PLLCFGR` touched by `build`. -/
structure PLLCFGR where
  pllm : Nat
  plln : Nat
  pllp : Nat
  pllq : Nat
  pllsrc : Bool
  deriving DecidableEq

/-- `RCC_PLLCFGR` resets to `0x24003010`: `PLLM = 16`, `PLLN = 192`,
`PLLP = 0b00`, `PLLQ = 4`, `PLLSRC = 0` (internal). -/
def PLLCFGR.reset : PLLCFGR :=
  { pllm := 16, plln := 192, pllp := 0, pllq := 4, pllsrc := false }

/-- The latency field of `FLASH_ACR`. -/
structure ACRReg where
  latency : Nat
  deriving DecidableEq

/-- `FLASH_ACR` latency resets to `0`. -/
def ACRReg.reset : ACRReg := { latency := 0 }

/-- The three registers `build` writes. -/
structure RegState where
  cfgr : CFGR
  pllcfgr : PLLCFGR
  acr : ACRReg
  deriving DecidableEq

/-- All three registers at their reset values. -/
def RegState.reset : RegState :=
  { cfgr := CFGR.reset, pllcfgr := PLLCFGR.reset, acr := ACRReg.reset }

/-- The effect of one device-crate `Reg::write` call on the register file:
a *whole-register* write, i.e. the written register takes its reset value on
every field except the one named by the event.  (`Reg::write` builds the
value from the reset value and applies the closure; `rcc.rs` never uses
`modify`.) -/
def applyEvent (r : RegState) (e : WriteEvent) : RegState :=
  match e with
  | WriteEvent.cfgrHpre x => { r with cfgr := { CFGR.reset with hpre := x } }
  | WriteEvent.cfgrPpre1 x => { r with cfgr := { CFGR.reset with ppre1 := x } }
  | WriteEvent.cfgrPpre2 x => { r with cfgr := { CFGR.reset with ppre2 := x } }
  | WriteEvent.cfgrSw x => { r with cfgr := { CFGR.reset with sw := x } }
  | WriteEvent.acrLatency x => { r with acr := { ACRReg.reset with latency := x } }
  | WriteEvent.pllcfgrSrc x => { r with pllcfgr := { PLLCFGR.reset with pllsrc := x } }
  | WriteEvent.pllcfgrM x => { r with pllcfgr := { PLLCFGR.reset with pllm := x } }
  | WriteEvent.pllcfgrN x => { r with pllcfgr := { PLLCFGR.reset with plln := x } }
  | WriteEvent.pllcfgrP x => { r with pllcfgr := { PLLCFGR.reset with pllp := x } }
  | WriteEvent.pllcfgrQ x => { r with pllcfgr := { PLLCFGR.reset with pllq := x } }

/-- Register file reached by replaying a write trace from reset. -/
def regsAfter (tr : List WriteEvent) : RegState :=
  List.foldl applyEvent RegState.reset tr

/-- `hclk_freq` as computed inside `build` (`rcc.rs` line 267). -/
def CFGRBuilder.hclkFreq (b : CFGRBuilder) : Nat :=
  b.sysclkFreq / (b.ahb_prescale.getD 1)

/-- `apb1_freq` as computed inside `build` (`rcc.rs` line 294). -/
def CFGRBuilder.pclk1Freq (b : CFGRBuilder) : Nat :=
  b.sysclkFreq / (b.apb1_prescale.getD 1)

/-- `apb2_freq` as computed inside `build` (`rcc.rs` line 318). -/
def CFGRBuilder.pclk2Freq (b : CFGRBuilder) : Nat :=
  b.sysclkFreq / (b.apb2_prescale.getD 1)

/-- `vco_freq` as computed inside the PLL block (`rcc.rs` lines 356-359):
`(source_freq / pll_m) * pll_n`, the `u32` multiplication wrapping. -/
def vcoFreq (src : ClockSource) (pll_m pll_n : Nat) : Nat :=
  ((sourceFreq src / pll_m) * pll_n) % u32Mod

/-- The five PLL validation asserts (`rcc.rs` lines 362-367) as one
predicate. -/
def pllCoefficientsOk (src : ClockSource) (pll_m pll_n pll_p pll_q : Nat) : Prop :=
  (2 ≤ pll_m ∧ pll_m ≤ 63)
  ∧ (50 ≤ pll_n ∧ pll_n ≤ 432)
  ∧ (pll_p = 2 ∨ pll_p = 4 ∨ pll_p = 6 ∨ pll_p = 8)
  ∧ (2 ≤ pll_q ∧ pll_q ≤ 15)
  ∧ (100000000 ≤ vcoFreq src pll_m pll_n ∧ vcoFreq src pll_m pll_n ≤ 432000000)

instance (src : ClockSource) (m n p q : Nat) : Decidable (pllCoefficientsOk src m n p q) := by
  unfold pllCoefficientsOk; infer_instance

/-- The `pll_m` value `enable_pll` derives from a source (`rcc.rs` lines
202-205). -/
def pllMOf : ClockSource → Nat
  | ClockSource.HSI => 8
  | ClockSource.HSE pll_input_freq => ((pll_input_freq + 1999999) % u32Mod) / 2000000

/-- The `Clocks` record a successful `build` returns, as a function of the
builder state (`rcc.rs` lines 395-402). -/
def CFGRBuilder.clocksOf (b : CFGRBuilder) : Clocks :=
  { hclk := b.hclkFreq, pclk1 := b.pclk1Freq, pclk2 := b.pclk2Freq,
    ppre1 := (b.apb1_prescale.getD 1) % 256,
    ppre2 := (b.apb2_prescale.getD 1) % 256,
    sysclk := b.sysclkFreq }

/-- A stored PLL whose coefficients fail validation (false when the PLL is
disabled). -/
def CFGRBuilder.pllViolation (b : CFGRBuilder) : Prop :=
  match b.pll with
  | none => False
  | some (pll_m, pll_n, pll_p, pll_q) => ¬ pllCoefficientsOk b.source pll_m pll_n pll_p pll_q

instance (b : CFGRBuilder) : Decidable b.pllViolation := by
  unfold CFGRBuilder.pllViolation
  rcases b.pll with _ | ⟨m, n, p, q⟩
  · exact inferInstance
  · exact inferInstance

/-- The disjunction of every validation failure `build` can abort on, stated
with the explicit value sets of the specification. -/
def CFGRBuilder.Violation (b : CFGRBuilder) : Prop :=
  (b.ahb_prescale.getD 1) ∉ ([1, 2, 4, 8, 16, 64, 128, 256, 512] : List Nat)
  ∨ (b.apb1_prescale.getD 1) ∉ ([1, 2, 4, 8, 16] : List Nat)
  ∨ (b.apb2_prescale.getD 1) ∉ ([1, 2, 4, 8, 16] : List Nat)
  ∨ 168000000 < b.hclkFreq
  ∨ 42000000 < b.pclk1Freq
  ∨ 84000000 < b.pclk2Freq
  ∨ b.pllViolation

/-- Is the event a write to one of the four PLL coefficient fields? -/
def isPllCoeffW : WriteEvent → Bool
  | WriteEvent.pllcfgrM _ => true
  | WriteEvent.pllcfgrN _ => true
  | WriteEvent.pllcfgrP _ => true
  | WriteEvent.pllcfgrQ _ => true
  | _ => false

/-- Is the event a write to the `PPRE1` field of `CFGR`? -/
def isPpre1W : WriteEvent → Bool
  | WriteEvent.cfgrPpre1 _ => true
  | _ => false

/-- Is the event a write to the `PPRE2` field of `CFGR`? -/
def isPpre2W : WriteEvent → Bool
  | WriteEvent.cfgrPpre2 _ => true
  | _ => false

/-- Is the event a write to the flash `ACR` latency field? -/
def isAcrW : WriteEvent → Bool
  | WriteEvent.acrLatency _ => true
  | _ => false

/-- The system-clock source-select code the final `cfgr.write(sw)` of a
successful `build` uses: PLL when the PLL is enabled (`rcc.rs` line 386),
else HSI or HSE (lines 390-391). -/
def CFGRBuilder.swCode (b : CFGRBuilder) : Nat :=
  match b.pll with
  | some _ => 2
  | none =>
      match b.source with
      | ClockSource.HSI => 0
      | ClockSource.HSE _ => 1

/-- The `PLLSRC` flag the PLL block writes (`rcc.rs` lines 350-353): false
(internal) for HSI, true (external) for HSE. -/
def pllsrcExt : ClockSource → Bool
  | ClockSource.HSI => false
  | ClockSource.HSE _ => true

/-- The full write trace of a successful `build`, as a function of the
builder state: AHB, APB1, APB2 prescaler writes, the flash latency write,
then either the five PLL-block writes followed by `SW := PLL`, or directly
`SW := HSI/HSE`. -/
def CFGRBuilder.successTrace (b : CFGRBuilder) : List WriteEvent :=
  [WriteEvent.cfgrHpre ((ahbBits (b.ahb_prescale.getD 1)).getD 0),
   WriteEvent.cfgrPpre1 ((apbBits (b.apb1_prescale.getD 1)).getD 0),
   WriteEvent.cfgrPpre1 ((apbBits (b.apb2_prescale.getD 1)).getD 0),
   WriteEvent.acrLatency (flashLatencyBits b.hclkFreq)]
  ++ (match b.pll with
      | some (pll_m, pll_n, pll_p, pll_q) =>
          [WriteEvent.pllcfgrSrc (pllsrcExt b.source),
           WriteEvent.pllcfgrM (pll_m % 256),
           WriteEvent.pllcfgrN (pll_n % 65536),
           WriteEvent.pllcfgrP ((pllPBits pll_p).getD 0),
           WriteEvent.pllcfgrQ (pll_q % 256),
           WriteEvent.cfgrSw 2]
      | none => [WriteEvent.cfgrSw b.swCode])

lemma ahbBits_none_iff (x : Nat) :
    ahbBits x = none ↔ x ∉ ([1, 2, 4, 8, 16, 64, 128, 256, 512] : List Nat) := by
  unfold ahbBits; split_ifs <;> simp_all

lemma apbBits_none_iff (x : Nat) :
    apbBits x = none ↔ x ∉ ([1, 2, 4, 8, 16] : List Nat) := by
  unfold apbBits; split_ifs <;> simp_all

lemma ahbStage_ok {s : Nat} {pres : Option Nat} {h bits : Nat}
    (hh : ahbStage s pres = Except.ok (h, bits)) :
    ahbBits (pres.getD 1) = some bits ∧ h = s / pres.getD 1 ∧ h ≤ 168000000 := by
  simp only [ahbStage] at hh
  split at hh
  · exact absurd hh (by simp)
  · split at hh <;> simp_all

lemma ahbStage_err {s : Nat} {pres : Option Nat} {r : AbortReason}
    (hh : ahbStage s pres = Except.error r) :
    (r = AbortReason.invalidAhb ∧ ahbBits (pres.getD 1) = none)
    ∨ (r = AbortReason.hclkTooHigh ∧ 168000000 < s / pres.getD 1) := by
  simp only [ahbStage] at hh
  split at hh
  · simp_all
  · split at hh <;> simp_all

lemma ahbStage_ok_of {s : Nat} {pres : Option Nat} {bits : Nat}
    (h1 : ahbBits (pres.getD 1) = some bits) (h2 : s / pres.getD 1 ≤ 168000000) :
    ahbStage s pres = Except.ok (s / pres.getD 1, bits) := by
  simp only [ahbStage]
  split <;> simp_all

lemma apb1Stage_ok {s : Nat} {pres : Option Nat} {f bits : Nat}
    (hh : apb1Stage s pres = Except.ok (f, bits)) :
    apbBits (pres.getD 1) = some bits ∧ f = s / pres.getD 1 ∧ f ≤ 42000000 := by
  simp only [apb1Stage] at hh
  split at hh
  · exact absurd hh (by simp)
  · split at hh <;> simp_all

lemma apb1Stage_err {s : Nat} {pres : Option Nat} {r : AbortReason}
    (hh : apb1Stage s pres = Except.error r) :
    (r = AbortReason.invalidApb1 ∧ apbBits (pres.getD 1) = none)
    ∨ (r = AbortReason.pclk1TooHigh ∧ 42000000 < s / pres.getD 1) := by
  simp only [apb1Stage] at hh
  split at hh
  · simp_all
  · split at hh <;> simp_all

lemma apb1Stage_ok_of {s : Nat} {pres : Option Nat} {bits : Nat}
    (h1 : apbBits (pres.getD 1) = some bits) (h2 : s / pres.getD 1 ≤ 42000000) :
    apb1Stage s pres = Except.ok (s / pres.getD 1, bits) := by
  simp only [apb1Stage]
  split <;> simp_all

lemma apb2Stage_ok {s : Nat} {pres : Option Nat} {f bits : Nat}
    (hh : apb2Stage s pres = Except.ok (f, bits)) :
    apbBits (pres.getD 1) = some bits ∧ f = s / pres.getD 1 ∧ f ≤ 84000000 := by
  simp only [apb2Stage] at hh
  split at hh
  · exact absurd hh (by simp)
  · split at hh <;> simp_all

lemma apb2Stage_err {s : Nat} {pres : Option Nat} {r : AbortReason}
    (hh : apb2Stage s pres = Except.error r) :
    (r = AbortReason.invalidApb2 ∧ apbBits (pres.getD 1) = none)
    ∨ (r = AbortReason.pclk2TooHigh ∧ 84000000 < s / pres.getD 1) := by
  simp only [apb2Stage] at hh
  split at hh
  · simp_all
  · split at hh <;> simp_all

lemma apb2Stage_ok_of {s : Nat} {pres : Option Nat} {bits : Nat}
    (h1 : apbBits (pres.getD 1) = some bits) (h2 : s / pres.getD 1 ≤ 84000000) :
    apb2Stage s pres = Except.ok (s / pres.getD 1, bits) := by
  simp only [apb2Stage]
  split <;> simp_all

lemma vcoFreq_match (src : ClockSource) (pll_m pll_n : Nat) :
    (match src with
      | ClockSource.HSI => ((16000000 / pll_m) * pll_n) % u32Mod
      | ClockSource.HSE freq => ((freq / pll_m) * pll_n) % u32Mod)
    = vcoFreq src pll_m pll_n := by
  cases src <;> rfl

lemma pllPBits_none_iff (p : Nat) :
    pllPBits p = none ↔ ¬(p = 2 ∨ p = 4 ∨ p = 6 ∨ p = 8) := by
  unfold pllPBits; split_ifs <;> simp_all

lemma pllStage_err {src : ClockSource} {pll_m pll_n pll_p pll_q : Nat}
    {tr : List WriteEvent} {r : AbortReason}
    (hh : pllStage src pll_m pll_n pll_p pll_q = (tr, Except.error r)) :
    tr = [WriteEvent.pllcfgrSrc (pllsrcExt src)]
    ∧ ¬ pllCoefficientsOk src pll_m pll_n pll_p pll_q
    ∧ (r = AbortReason.pllMOut ∨ r = AbortReason.pllNOut ∨ r = AbortReason.pllPOut
       ∨ r = AbortReason.pllQOut ∨ r = AbortReason.vcoOut) := by
  simp only [pllStage] at hh
  rw [vcoFreq_match] at hh
  cases src <;>
    (simp only [pllsrcExt]
     split at hh
     · split at hh
       · split at hh
         · split at hh
           · split at hh
             · split at hh <;> simp_all [pllCoefficientsOk, pllPBits_none_iff]
             · simp_all [pllCoefficientsOk]
           · simp_all [pllCoefficientsOk]
         · simp_all [pllCoefficientsOk]
       · simp_all [pllCoefficientsOk]
     · simp_all [pllCoefficientsOk])

lemma pllStage_ok {src : ClockSource} {pll_m pll_n pll_p pll_q : Nat}
    {tr : List WriteEvent}
    (hh : pllStage src pll_m pll_n pll_p pll_q = (tr, Except.ok ())) :
    pllCoefficientsOk src pll_m pll_n pll_p pll_q
    ∧ tr = [WriteEvent.pllcfgrSrc (pllsrcExt src),
            WriteEvent.pllcfgrM (pll_m % 256),
            WriteEvent.pllcfgrN (pll_n % 65536),
            WriteEvent.pllcfgrP ((pllPBits pll_p).getD 0),
            WriteEvent.pllcfgrQ (pll_q % 256),
            WriteEvent.cfgrSw 2] := by
  simp only [pllStage] at hh
  rw [vcoFreq_match] at hh
  cases src <;>
    (simp only [pllsrcExt]
     split at hh
     · split at hh
       · split at hh
         · split at hh
           · split at hh
             · split at hh <;> simp_all [pllCoefficientsOk, pllPBits_none_iff]
             · simp_all [pllCoefficientsOk]
           · simp_all [pllCoefficientsOk]
         · simp_all [pllCoefficientsOk]
       · simp_all [pllCoefficientsOk]
     · simp_all [pllCoefficientsOk])

lemma pllStage_ok_of {src : ClockSource} {pll_m pll_n pll_p pll_q : Nat}
    (hok : pllCoefficientsOk src pll_m pll_n pll_p pll_q) :
    pllStage src pll_m pll_n pll_p pll_q
    = ([WriteEvent.pllcfgrSrc (pllsrcExt src),
        WriteEvent.pllcfgrM (pll_m % 256),
        WriteEvent.pllcfgrN (pll_n % 65536),
        WriteEvent.pllcfgrP ((pllPBits pll_p).getD 0),
        WriteEvent.pllcfgrQ (pll_q % 256),
        WriteEvent.cfgrSw 2], Except.ok ()) := by
  obtain ⟨hm, hn, hp, hq, hv⟩ := hok
  simp only [pllStage]
  rw [vcoFreq_match]
  have hpb : ∃ y, pllPBits pll_p = some y := by
    rcases hp with h | h | h | h <;> subst h <;> exact ⟨_, rfl⟩
  obtain ⟨y, hy⟩ := hpb
  cases src <;> simp_all [pllsrcExt]

lemma ahbBits_some_of_mem {x : Nat}
    (h : x ∈ ([1, 2, 4, 8, 16, 64, 128, 256, 512] : List Nat)) :
    ∃ y, ahbBits x = some y := by
  fin_cases h <;> exact ⟨_, rfl⟩

lemma apbBits_some_of_mem {x : Nat} (h : x ∈ ([1, 2, 4, 8, 16] : List Nat)) :
    ∃ y, apbBits x = some y := by
  fin_cases h <;> exact ⟨_, rfl⟩

lemma hclkFreq_def (b : CFGRBuilder) :
    b.hclkFreq = b.sysclkFreq / b.ahb_prescale.getD 1 := rfl

lemma pclk1Freq_def (b : CFGRBuilder) :
    b.pclk1Freq = b.sysclkFreq / b.apb1_prescale.getD 1 := rfl

lemma pclk2Freq_def (b : CFGRBuilder) :
    b.pclk2Freq = b.sysclkFreq / b.apb2_prescale.getD 1 := rfl

/-- Everything a successful `build` guarantees: no validation was violated,
the returned record is `clocksOf`, and the trace is `successTrace`. -/
lemma build_ok_facts {b : CFGRBuilder} {tr : List WriteEvent} {c : Clocks}
    (h : b.build = (tr, Except.ok c)) :
    ¬ b.Violation ∧ c = b.clocksOf ∧ tr = b.successTrace := by
  simp only [CFGRBuilder.build] at h
  by_cases hg : pllZeroTrap b.pll = true
  · rw [if_pos hg] at h; exact absurd h (by simp)
  · rw [if_neg hg] at h
    rcases hA : ahbStage b.sysclkFreq b.ahb_prescale with rA | ⟨hclk_freq, ahb_bits⟩
    · rw [hA] at h; exact absurd h (by simp)
    · rw [hA] at h
      obtain ⟨hA1, hA2, hA3⟩ := ahbStage_ok hA
      rcases hB : apb1Stage b.sysclkFreq b.apb1_prescale with rB | ⟨pclk1_freq, a1_bits⟩
      · rw [hB] at h; exact absurd h (by simp)
      · rw [hB] at h
        obtain ⟨hB1, hB2, hB3⟩ := apb1Stage_ok hB
        rcases hC : apb2Stage b.sysclkFreq b.apb2_prescale with rC | ⟨pclk2_freq, a2_bits⟩
        · rw [hC] at h; exact absurd h (by simp)
        · rw [hC] at h
          obtain ⟨hC1, hC2, hC3⟩ := apb2Stage_ok hC
          rcases hp : b.pll with _ | ⟨m, n, p, q⟩
          · rw [hp] at h
            simp only [] at h
            obtain ⟨htr, hc⟩ := Prod.mk.injEq .. ▸ h
            refine ⟨?_, ?_, ?_⟩
            · simp only [CFGRBuilder.Violation, CFGRBuilder.pllViolation, hp]
              push_neg
              refine ⟨?_, ?_, ?_, ?_, ?_, ?_, ?_⟩
              · by_contra hmem
                rw [(ahbBits_none_iff _).mpr hmem] at hA1
                simp at hA1
              · by_contra hmem
                rw [(apbBits_none_iff _).mpr hmem] at hB1
                simp at hB1
              · by_contra hmem
                rw [(apbBits_none_iff _).mpr hmem] at hC1
                simp at hC1
              · rw [hclkFreq_def, ← hA2]; exact hA3
              · rw [pclk1Freq_def, ← hB2]; exact hB3
              · rw [pclk2Freq_def, ← hC2]; exact hC3
              · simp
            · have := hc.symm ▸ (Except.ok.injEq ..)
              simp only [Except.ok.injEq] at hc
              rw [← hc]
              simp [CFGRBuilder.clocksOf, hclkFreq_def, pclk1Freq_def, pclk2Freq_def,
                hA2, hB2, hC2]
            · rw [← htr]
              simp only [CFGRBuilder.successTrace, hp, CFGRBuilder.swCode, hA1, hB1, hC1]
              rcases b.source <;> simp [hclkFreq_def, hA2]
          · rw [hp] at h
            simp only [] at h
            rcases hP : pllStage b.source m n p q with ⟨ptr, res⟩
            rw [hP] at h
            rcases res with rP | u
            · exact absurd h (by simp)
            · cases u
              obtain ⟨hok, hptr⟩ := pllStage_ok hP
              simp only [Except.ok.injEq, Prod.mk.injEq] at h
              obtain ⟨htr, hc⟩ := h
              refine ⟨?_, ?_, ?_⟩
              · simp only [CFGRBuilder.Violation, CFGRBuilder.pllViolation, hp]
                push_neg
                refine ⟨?_, ?_, ?_, ?_, ?_, ?_, ?_⟩
                · by_contra hmem
                  rw [(ahbBits_none_iff _).mpr hmem] at hA1
                  simp at hA1
                · by_contra hmem
                  rw [(apbBits_none_iff _).mpr hmem] at hB1
                  simp at hB1
                · by_contra hmem
                  rw [(apbBits_none_iff _).mpr hmem] at hC1
                  simp at hC1
                · rw [hclkFreq_def, ← hA2]; exact hA3
                · rw [pclk1Freq_def, ← hB2]; exact hB3
                · rw [pclk2Freq_def, ← hC2]; exact hC3
                · simpa using hok
              · rw [← hc]
                simp [CFGRBuilder.clocksOf, hclkFreq_def, pclk1Freq_def, pclk2Freq_def,
                  hA2, hB2, hC2]
              · rw [← htr, hptr]
                simp [CFGRBuilder.successTrace, hp, hA1, hB1, hC1, hclkFreq_def, hA2]

/-- Conversely, a builder state that violates no validation builds
successfully, producing exactly the canonical trace and clocks. -/
lemma build_ok_of_not_violation {b : CFGRBuilder} (hv : ¬ b.Violation) :
    b.build = (b.successTrace, Except.ok b.clocksOf) := by
  unfold CFGRBuilder.Violation at hv
  push_neg at hv
  obtain ⟨v1, v2, v3, v4, v5, v6, v7⟩ := hv
  obtain ⟨abits, hab⟩ := ahbBits_some_of_mem v1
  obtain ⟨b1bits, hb1⟩ := apbBits_some_of_mem v2
  obtain ⟨b2bits, hb2⟩ := apbBits_some_of_mem v3
  rw [hclkFreq_def] at v4
  rw [pclk1Freq_def] at v5
  rw [pclk2Freq_def] at v6
  simp only [CFGRBuilder.build]
  rcases hp : b.pll with _ | ⟨m, n, p, q⟩
  · rw [if_neg (by simp [pllZeroTrap])]
    rw [ahbStage_ok_of hab v4, apb1Stage_ok_of hb1 v5, apb2Stage_ok_of hb2 v6]
    simp only []
    cases hs : b.source <;>
      simp [CFGRBuilder.successTrace, CFGRBuilder.clocksOf, CFGRBuilder.swCode, hp, hs,
        hab, hb1, hb2, hclkFreq_def, pclk1Freq_def, pclk2Freq_def]
  · have hok : pllCoefficientsOk b.source m n p q := by
      unfold CFGRBuilder.pllViolation at v7
      rw [hp] at v7
      exact not_not.mp v7
    have hm0 : m ≠ 0 := by obtain ⟨⟨h2, _⟩, _⟩ := hok; omega
    have hq0 : p ≠ 0 := by
      obtain ⟨_, _, hp4, _⟩ := hok
      rcases hp4 with h | h | h | h <;> omega
    rw [if_neg (by simp [pllZeroTrap, hm0, hq0])]
    rw [ahbStage_ok_of hab v4, apb1Stage_ok_of hb1 v5, apb2Stage_ok_of hb2 v6]
    simp only []
    rw [pllStage_ok_of hok]
    simp [CFGRBuilder.successTrace, CFGRBuilder.clocksOf, hp, hab, hb1, hb2,
      hclkFreq_def, pclk1Freq_def, pclk2Freq_def]

/-- Everything an aborting `build` guarantees: some validation was violated,
no PLL coefficient field was ever written, a PLL-validation abort left the
PLL source-select already written, and a discrete prescaler violation left
the corresponding stage unwritten. -/
lemma build_err_facts {b : CFGRBuilder} {tr : List WriteEvent} {r : AbortReason}
    (h : b.build = (tr, Except.error r)) :
    b.Violation
    ∧ (∀ e ∈ tr, isPllCoeffW e = false)
    ∧ ((r = AbortReason.pllMOut ∨ r = AbortReason.pllNOut ∨ r = AbortReason.pllPOut
        ∨ r = AbortReason.pllQOut ∨ r = AbortReason.vcoOut) →
        WriteEvent.pllcfgrSrc (pllsrcExt b.source) ∈ tr)
    ∧ ((b.ahb_prescale.getD 1) ∉ ([1, 2, 4, 8, 16, 64, 128, 256, 512] : List Nat) → tr = [])
    ∧ ((b.apb1_prescale.getD 1) ∉ ([1, 2, 4, 8, 16] : List Nat) →
        ∀ x, WriteEvent.cfgrPpre1 x ∉ tr)
    ∧ ((b.apb2_prescale.getD 1) ∉ ([1, 2, 4, 8, 16] : List Nat) →
        (tr.filter isPpre1W).length ≤ 1) := by
  simp only [CFGRBuilder.build] at h
  by_cases hg : pllZeroTrap b.pll = true
  · rw [if_pos hg] at h
    simp only [Prod.mk.injEq, Except.error.injEq] at h
    obtain ⟨htr, hr⟩ := h
    subst htr
    have hviol : b.Violation := by
      unfold pllZeroTrap at hg
      rcases hpll : b.pll with _ | ⟨m, n, p, q⟩
      · rw [hpll] at hg; simp at hg
      · rw [hpll] at hg
        simp only [Bool.or_eq_true, decide_eq_true_eq] at hg
        refine Or.inr (Or.inr (Or.inr (Or.inr (Or.inr (Or.inr ?_)))))
        unfold CFGRBuilder.pllViolation
        rw [hpll]
        intro hok
        obtain ⟨⟨h2, _⟩, _, hp4, _⟩ := hok
        rcases hp4 with h | h | h | h <;> omega
    exact ⟨hviol, by simp, by simp [← hr], by simp, by simp, by simp⟩
  · rw [if_neg hg] at h
    rcases hA : ahbStage b.sysclkFreq b.ahb_prescale with rA | ⟨hclk_freq, ahb_bits⟩
    · rw [hA] at h
      simp only [Prod.mk.injEq, Except.error.injEq] at h
      obtain ⟨htr, hr⟩ := h
      subst htr
      rcases ahbStage_err hA with ⟨hr2, hn⟩ | ⟨hr2, hgt⟩
      · refine ⟨Or.inl ((ahbBits_none_iff _).mp hn), by simp, ?_, by simp, by simp, by simp⟩
        rw [← hr, hr2]; simp
      · refine ⟨Or.inr (Or.inr (Or.inr (Or.inl ?_))), by simp, ?_, by simp, by simp, by simp⟩
        · rw [hclkFreq_def]; exact hgt
        · rw [← hr, hr2]; simp
    · rw [hA] at h
      obtain ⟨hA1, hA2, hA3⟩ := ahbStage_ok hA
      have hAmem : (b.ahb_prescale.getD 1) ∈ ([1, 2, 4, 8, 16, 64, 128, 256, 512] : List Nat) := by
        by_contra hmem
        rw [(ahbBits_none_iff _).mpr hmem] at hA1
        simp at hA1
      rcases hB : apb1Stage b.sysclkFreq b.apb1_prescale with rB | ⟨pclk1_freq, a1_bits⟩
      · rw [hB] at h
        simp only [Prod.mk.injEq, Except.error.injEq] at h
        obtain ⟨htr, hr⟩ := h
        subst htr
        rcases apb1Stage_err hB with ⟨hr2, hn⟩ | ⟨hr2, hgt⟩
        · refine ⟨Or.inr (Or.inl ((apbBits_none_iff _).mp hn)), by simp [isPllCoeffW], ?_,
            by intro hmem; exact absurd hAmem hmem, by simp, by simp [isPpre1W]⟩
          rw [← hr, hr2]; simp
        · refine ⟨Or.inr (Or.inr (Or.inr (Or.inr (Or.inl ?_)))), by simp [isPllCoeffW], ?_,
            by intro hmem; exact absurd hAmem hmem, by simp, by simp [isPpre1W]⟩
          · rw [pclk1Freq_def]; exact hgt
          · rw [← hr, hr2]; simp
      · rw [hB] at h
        obtain ⟨hB1, hB2, hB3⟩ := apb1Stage_ok hB
        have hBmem : (b.apb1_prescale.getD 1) ∈ ([1, 2, 4, 8, 16] : List Nat) := by
          by_contra hmem
          rw [(apbBits_none_iff _).mpr hmem] at hB1
          simp at hB1
        rcases hC : apb2Stage b.sysclkFreq b.apb2_prescale with rC | ⟨pclk2_freq, a2_bits⟩
        · rw [hC] at h
          simp only [Prod.mk.injEq, Except.error.injEq] at h
          obtain ⟨htr, hr⟩ := h
          subst htr
          rcases apb2Stage_err hC with ⟨hr2, hn⟩ | ⟨hr2, hgt⟩
          · refine ⟨Or.inr (Or.inr (Or.inl ((apbBits_none_iff _).mp hn))),
              by simp [isPllCoeffW], ?_,
              by intro hmem; exact absurd hAmem hmem,
              by intro hmem; exact absurd hBmem hmem,
              by simp [isPpre1W]⟩
            rw [← hr, hr2]; simp
          · refine ⟨Or.inr (Or.inr (Or.inr (Or.inr (Or.inr (Or.inl ?_))))),
              by simp [isPllCoeffW], ?_,
              by intro hmem; exact absurd hAmem hmem,
              by intro hmem; exact absurd hBmem hmem,
              by simp [isPpre1W]⟩
            · rw [pclk2Freq_def]; exact hgt
            · rw [← hr, hr2]; simp
        · rw [hC] at h
          obtain ⟨hC1, hC2, hC3⟩ := apb2Stage_ok hC
          have hCmem : (b.apb2_prescale.getD 1) ∈ ([1, 2, 4, 8, 16] : List Nat) := by
            by_contra hmem
            rw [(apbBits_none_iff _).mpr hmem] at hC1
            simp at hC1
          rcases hp : b.pll with _ | ⟨m, n, p, q⟩
          · rw [hp] at h
            simp only [] at h
            exact absurd h (by simp)
          · rw [hp] at h
            simp only [] at h
            rcases hP : pllStage b.source m n p q with ⟨ptr, res⟩
            rw [hP] at h
            rcases res with rP | u
            · simp only [Prod.mk.injEq, Except.error.injEq] at h
              obtain ⟨htr, hr⟩ := h
              subst htr
              obtain ⟨hptr, hnok, hrs⟩ := pllStage_err hP
              subst hptr
              refine ⟨?_, by simp [isPllCoeffW], by intro _; simp, ?_, ?_, ?_⟩
              · refine Or.inr (Or.inr (Or.inr (Or.inr (Or.inr (Or.inr ?_)))))
                unfold CFGRBuilder.pllViolation
                rw [hp]
                exact hnok
              · intro hmem; exact absurd hAmem hmem
              · intro hmem; exact absurd hBmem hmem
              · intro hmem; exact absurd hCmem hmem
            · exact absurd h (by simp)
  
lemma build_pair (b : CFGRBuilder) : b.build = ((b.build).1, (b.build).2) := rfl

/-- Example state for claims C1 and C5 relatives: HSI, PLL `(m=8, n=168, p=2,
q=20)` — `q = 20` is out of range, everything else passes — with APB1/4 and
APB2/2 so the bus checks pass. -/
def bEx1 : CFGRBuilder :=
  ((constrainCfgr.enable_pll 168 2 20).set_apb1_prescale 4).set_apb2_prescale 2

/-- Claim C1 counterexample: the claim says an abort caused by an
out-of-range PLL coefficient happens before *any* write to the PLL
configuration register, *including the source-select write*.  On `bEx1`
(only `q = 20` invalid) `build` aborts at the `pll_q` assert, but the trace
it leaves already contains the `PLLSRC` write: in `rcc.rs` the
`pllcfgr.write(pllsrc)` (lines 350-353) precedes the validation asserts
(lines 362-367). -/
theorem c1_counterexample :
    bEx1.build
      = ([WriteEvent.cfgrHpre 0, WriteEvent.cfgrPpre1 5, WriteEvent.cfgrPpre1 4,
          WriteEvent.acrLatency 5, WriteEvent.pllcfgrSrc false],
         Except.error AbortReason.pllQOut)
    ∧ WriteEvent.pllcfgrSrc false ∈ (bEx1.build).1 := by
  exact ⟨rfl, by decide⟩

/-- Claim C1 (amended): when `build` aborts, no PLL *coefficient* field
(`PLLM`, `PLLN`, `PLLP`, `PLLQ`) has been written; but when the abort is one
of the five PLL validation failures, the PLL source-select write has already
happened. -/
theorem c1_amended_abort_before_coefficient_writes :
    ∀ (b : CFGRBuilder) (tr : List WriteEvent) (r : AbortReason),
    b.build = (tr, Except.error r) →
    (∀ e ∈ tr, isPllCoeffW e = false)
    ∧ ((r = AbortReason.pllMOut ∨ r = AbortReason.pllNOut ∨ r = AbortReason.pllPOut
        ∨ r = AbortReason.pllQOut ∨ r = AbortReason.vcoOut) →
        WriteEvent.pllcfgrSrc (pllsrcExt b.source) ∈ tr) := by
  intro b tr r h
  obtain ⟨-, h2, h3, -, -, -⟩ := build_err_facts h
  exact ⟨h2, h3⟩

/-- Witness for C1's amended theorem at the concrete aborting state `bEx1`. -/
theorem c1_amended_witness :
    WriteEvent.pllcfgrSrc (pllsrcExt bEx1.source)
      ∈ ([WriteEvent.cfgrHpre 0, WriteEvent.cfgrPpre1 5, WriteEvent.cfgrPpre1 4,
          WriteEvent.acrLatency 5, WriteEvent.pllcfgrSrc false] : List WriteEvent) :=
  (c1_amended_abort_before_coefficient_writes bEx1 _ AbortReason.pllQOut rfl).2
    (Or.inr (Or.inr (Or.inr (Or.inl rfl))))

/-- Example state for claim C2: default builder with APB2 prescale 2, whose
bit code is `0b100 = 4` while APB1 keeps code `0b000 = 0`. -/
def bEx2 : CFGRBuilder := constrainCfgr.set_apb2_prescale 2

/-- Claim C2 (code bug, evaluated at the failing input): the APB2 stage of
`build` writes the APB2 prescaler bit code `0b100` into the *PPRE1* field
(`rcc.rs` line 324 calls `.ppre1()`), and no write to the PPRE2 field ever
occurs in the trace. -/
theorem c2_apb2_write_targets_ppre1_field :
    (bEx2.build).1
      = [WriteEvent.cfgrHpre 0, WriteEvent.cfgrPpre1 0, WriteEvent.cfgrPpre1 4,
         WriteEvent.acrLatency 0, WriteEvent.cfgrSw 0]
    ∧ (bEx2.build).1.filter isPpre2W = []
    ∧ ((bEx2.build).1)[2]? = some (WriteEvent.cfgrPpre1 4) := by
  exact ⟨rfl, rfl, rfl⟩

/-- Example state for claim C3: a fully valid PLL build — HSI,
`(m=8, n=168, p=2, q=7)`, APB1/4, APB2/2. -/
def bEx3 : CFGRBuilder :=
  ((constrainCfgr.enable_pll 168 2 7).set_apb1_prescale 4).set_apb2_prescale 2

/-- Claim C3 (code bug, evaluated at the failing input): each of the four
PLL coefficient writes is a whole-register write that resets the sibling
fields, so after `build` succeeds on `bEx3` the PLLCFGR register holds only
the last-written `q = 7`; `m` and `n` are back at their reset values
(16 and 192), not the written 8 and 168.  Mid-trace: after the `PLLM` write
(`take 6`) the register holds `m = 8`, and the very next `PLLN` write
(`take 7`) destroys it. -/
theorem c3_pll_coefficient_writes_clobber_each_other :
    (∃ c, (bEx3.build).2 = Except.ok c)
    ∧ (regsAfter ((bEx3.build).1.take 6)).pllcfgr.pllm = 8
    ∧ (regsAfter ((bEx3.build).1.take 7)).pllcfgr.pllm = 16
    ∧ (regsAfter (bEx3.build).1).pllcfgr
        = { pllm := 16, plln := 192, pllp := 0, pllq := 7, pllsrc := false }
    ∧ (16 : Nat) ≠ 8 ∧ (192 : Nat) ≠ 168 := by
  refine ⟨⟨bEx3.clocksOf, rfl⟩, rfl, rfl, rfl, by decide, by decide⟩

/-- Claim C4 (confirmed): in every successful `build` the flash
access-control latency write occurs strictly before the system-clock
source-select (`SW`) write. -/
theorem c4_latency_write_before_sw_write :
    ∀ (b : CFGRBuilder) (tr : List WriteEvent) (c : Clocks),
    b.build = (tr, Except.ok c) →
    ∃ (i j lat sw : Nat), i < j
      ∧ tr[i]? = some (WriteEvent.acrLatency lat)
      ∧ tr[j]? = some (WriteEvent.cfgrSw sw) := by
  intro b tr c h
  obtain ⟨-, -, htr⟩ := build_ok_facts h
  subst htr
  unfold CFGRBuilder.successTrace
  rcases hp : b.pll with _ | ⟨m, n, p, q⟩
  · exact ⟨3, 4, _, _, by omega, rfl, rfl⟩
  · exact ⟨3, 9, _, _, by omega, rfl, rfl⟩

/-- Witness for C4 at the default builder. -/
theorem c4_witness :
    ∃ (i j lat sw : Nat), i < j
      ∧ ((constrainCfgr.build).1)[i]? = some (WriteEvent.acrLatency lat)
      ∧ ((constrainCfgr.build).1)[j]? = some (WriteEvent.cfgrSw sw) :=
  c4_latency_write_before_sw_write constrainCfgr (constrainCfgr.build).1
    { hclk := 16000000, pclk1 := 16000000, pclk2 := 16000000, ppre1 := 1, ppre2 := 1,
      sysclk := 16000000 } rfl

/-- Example state for claim C5: HSI, PLL `n = 336`, `p = 2`, `q = 7`
(`m` auto-computed as 8), no prescalers. -/
def bEx5 : CFGRBuilder := constrainCfgr.enable_pll 336 2 7

/-- Claim C5 counterexample: the claim says this configuration is rejected
*by the VCO bound check*, the PLL-bounds stage firing *before* the bus-bounds
stage.  In fact `build` aborts at the `hclk ≤ 168 MHz` bus check (with an
empty write trace), which in `rcc.rs` (line 273) runs long before the PLL
validation (line 367); the VCO check is never reached. -/
theorem c5_counterexample :
    bEx5.build = ([], Except.error AbortReason.hclkTooHigh)
    ∧ AbortReason.hclkTooHigh ≠ AbortReason.vcoOut := by
  exact ⟨rfl, by decide⟩

/-- Claim C5 (amended): `bEx5` stores `m = 8`; its VCO frequency
672 MHz is indeed outside the 100-432 MHz bound, but `build` rejects the
configuration earlier, at the `hclk ≤ 168 MHz` check (`sysclk = hclk =
336 MHz`): the bus-bounds stage runs before the PLL-bounds stage. -/
theorem c5_amended_rejected_by_hclk_check :
    bEx5.pll = some (8, 336, 2, 7)
    ∧ bEx5.build = ([], Except.error AbortReason.hclkTooHigh)
    ∧ bEx5.hclkFreq = 336000000
    ∧ ¬ (336000000 ≤ 168000000)
    ∧ vcoFreq bEx5.source 8 336 = 672000000
    ∧ ¬ (100000000 ≤ 672000000 ∧ 672000000 ≤ 432000000) := by
  refine ⟨rfl, rfl, rfl, by decide, rfl, by decide⟩

/-- Example state for claim C6: `enable_pll` called while the source is
HSE 4 MHz (storing `m = 2`), then the source changed to HSE 26 MHz; APB1/4,
APB2/2.  The 32-bit product `(26_000_000 / 2) * 350 = 4_550_000_000`
overflows `u32`. -/
def bEx6 : CFGRBuilder :=
  ((((constrainCfgr.set_source (ClockSource.HSE 4000000)).enable_pll 350 2 7).set_source
      (ClockSource.HSE 26000000)).set_apb1_prescale 4).set_apb2_prescale 2

/-- Claim C6 counterexample: the claim's formula `((source_freq / m) * n) / p`
(truncating division) gives 2_275_000_000 on `bEx6`, yet `build` succeeds and
returns `sysclk = 127_516_352` because the `u32` multiplication
`vco * pll_n` (`rcc.rs` line 242) wraps modulo `2 ^ 32`. -/
theorem c6_counterexample :
    bEx6.pll = some (2, 350, 2, 7)
    ∧ bEx6.source = ClockSource.HSE 26000000
    ∧ (bEx6.build).2 = Except.ok bEx6.clocksOf
    ∧ bEx6.clocksOf.sysclk = 127516352
    ∧ ((sourceFreq bEx6.source / 2) * 350) / 2 = 2275000000
    ∧ (127516352 : Nat) ≠ 2275000000 := by
  refine ⟨rfl, rfl, rfl, rfl, rfl, by decide⟩

/-- Claim C6 (amended): the sysclk a successful `build` returns is
`(((source_freq / m) * n) mod 2 ^ 32) / p` when the PLL is enabled — which
coincides with the claim's `((source_freq / m) * n) / p` whenever the
product stays below `2 ^ 32` — and the raw source frequency when the PLL is
disabled. -/
theorem c6_sysclk_amended :
    ∀ (b : CFGRBuilder) (tr : List WriteEvent) (c : Clocks),
    b.build = (tr, Except.ok c) →
    (∀ m n p q, b.pll = some (m, n, p, q) →
        c.sysclk = ((sourceFreq b.source / m) * n % u32Mod) / p)
    ∧ (∀ m n p q, b.pll = some (m, n, p, q) → (sourceFreq b.source / m) * n < u32Mod →
        c.sysclk = ((sourceFreq b.source / m) * n) / p)
    ∧ (b.pll = none → c.sysclk = sourceFreq b.source) := by
  intro b tr c h
  obtain ⟨-, hc, -⟩ := build_ok_facts h
  subst hc
  refine ⟨?_, ?_, ?_⟩
  · intro m n p q hp
    simp [CFGRBuilder.clocksOf, CFGRBuilder.sysclkFreq, hp]
  · intro m n p q hp hlt
    simp [CFGRBuilder.clocksOf, CFGRBuilder.sysclkFreq, hp, Nat.mod_eq_of_lt hlt]
  · intro hp
    simp [CFGRBuilder.clocksOf, CFGRBuilder.sysclkFreq, hp]

/-- Witness for C6's amended theorem at `bEx3` (no overflow: the product is
336 MHz). -/
theorem c6_sysclk_witness :
    bEx3.clocksOf.sysclk = ((sourceFreq bEx3.source / 8) * 168) / 2 :=
  ((c6_sysclk_amended bEx3 _ _ rfl).2.1) 8 168 2 7 rfl (by decide)

/-- Claim C7 (confirmed): the latency value a successful `build` writes to
the flash access-control register is `flashLatencyBits` of the returned
`hclk` and nothing else; `flashLatencyBits` is exactly the claimed inclusive
threshold table, and the three quoted sample points evaluate as claimed. -/
theorem c7_flash_latency_pure_function_of_hclk :
    (∀ (b : CFGRBuilder) (tr : List WriteEvent) (c : Clocks),
      b.build = (tr, Except.ok c) →
      tr.filter isAcrW = [WriteEvent.acrLatency (flashLatencyBits c.hclk)])
    ∧ (∀ h, h ≤ 30000000 → flashLatencyBits h = 0b000)
    ∧ (∀ h, 30000000 < h → h ≤ 60000000 → flashLatencyBits h = 0b001)
    ∧ (∀ h, 60000000 < h → h ≤ 90000000 → flashLatencyBits h = 0b010)
    ∧ (∀ h, 90000000 < h → h ≤ 120000000 → flashLatencyBits h = 0b011)
    ∧ (∀ h, 120000000 < h → h ≤ 150000000 → flashLatencyBits h = 0b100)
    ∧ (∀ h, 150000000 < h → flashLatencyBits h = 0b101)
    ∧ flashLatencyBits 168000000 = 0b101
    ∧ flashLatencyBits 30000000 = 0b000
    ∧ flashLatencyBits 30000001 = 0b001 := by
  refine ⟨?_, ?_, ?_, ?_, ?_, ?_, ?_, rfl, rfl, rfl⟩
  · intro b tr c h
    obtain ⟨-, hc, htr⟩ := build_ok_facts h
    subst hc
    subst htr
    unfold CFGRBuilder.successTrace
    rcases hp : b.pll with _ | ⟨m, n, p, q⟩ <;>
      simp [isAcrW, CFGRBuilder.clocksOf, List.filter_append]
  all_goals intro h
  · intro h1; unfold flashLatencyBits; split_ifs <;> omega
  · intro h1 h2; unfold flashLatencyBits; split_ifs <;> omega
  · intro h1 h2; unfold flashLatencyBits; split_ifs <;> omega
  · intro h1 h2; unfold flashLatencyBits; split_ifs <;> omega
  · intro h1 h2; unfold flashLatencyBits; split_ifs <;> omega
  · intro h1; unfold flashLatencyBits; split_ifs <;> omega

/-- Witness for C7 at the default builder (`hclk = 16 MHz`, latency 0). -/
theorem c7_witness :
    (constrainCfgr.build).1.filter isAcrW
      = [WriteEvent.acrLatency (flashLatencyBits 16000000)] :=
  c7_flash_latency_pure_function_of_hclk.1 constrainCfgr (constrainCfgr.build).1
    { hclk := 16000000, pclk1 := 16000000, pclk2 := 16000000, ppre1 := 1, ppre2 := 1,
      sysclk := 16000000 } rfl

/-- Claim C8 (confirmed): `build` aborts exactly when one of the claimed
validations fails (discrete prescaler sets, the three bus frequency
ceilings, or — PLL enabled — a PLL coefficient/VCO bound); a discrete
prescaler violation aborts before the register write of its own stage; and
on success the returned record carries the exact requested values — nothing
is clamped. -/
theorem c8_abort_iff_validation_fails :
    ∀ b : CFGRBuilder,
    ((∃ r, (b.build).2 = Except.error r) ↔ b.Violation)
    ∧ ((b.ahb_prescale.getD 1) ∉ ([1, 2, 4, 8, 16, 64, 128, 256, 512] : List Nat) →
        (b.build).1 = [])
    ∧ ((b.apb1_prescale.getD 1) ∉ ([1, 2, 4, 8, 16] : List Nat) →
        ∀ x, WriteEvent.cfgrPpre1 x ∉ (b.build).1)
    ∧ ((b.apb2_prescale.getD 1) ∉ ([1, 2, 4, 8, 16] : List Nat) →
        ((b.build).1.filter isPpre1W).length ≤ 1)
    ∧ (∀ c, (b.build).2 = Except.ok c → c = b.clocksOf)
    ∧ (b.pllViolation → ∀ e ∈ (b.build).1, isPllCoeffW e = false) := by
  intro b
  refine ⟨⟨?_, ?_⟩, ?_, ?_, ?_, ?_, ?_⟩
  · rintro ⟨r, hr⟩
    have h2 : b.build = ((b.build).1, Except.error r) := by rw [← hr]
    exact (build_err_facts h2).1
  · intro hv
    rcases hres : (b.build).2 with r | c
    · exact ⟨r, hres ▸ rfl⟩
    · have h2 : b.build = ((b.build).1, Except.ok c) := by rw [← hres]
      exact absurd hv (build_ok_facts h2).1
  · intro hmem
    rcases hres : (b.build).2 with r | c
    · have h2 : b.build = ((b.build).1, Except.error r) := by rw [← hres]
      exact (build_err_facts h2).2.2.2.1 hmem
    · have h2 : b.build = ((b.build).1, Except.ok c) := by rw [← hres]
      exact absurd (Or.inl hmem) (build_ok_facts h2).1
  · intro hmem
    rcases hres : (b.build).2 with r | c
    · have h2 : b.build = ((b.build).1, Except.error r) := by rw [← hres]
      exact (build_err_facts h2).2.2.2.2.1 hmem
    · have h2 : b.build = ((b.build).1, Except.ok c) := by rw [← hres]
      exact absurd (Or.inr (Or.inl hmem)) (build_ok_facts h2).1
  · intro hmem
    rcases hres : (b.build).2 with r | c
    · have h2 : b.build = ((b.build).1, Except.error r) := by rw [← hres]
      exact (build_err_facts h2).2.2.2.2.2 hmem
    · have h2 : b.build = ((b.build).1, Except.ok c) := by rw [← hres]
      exact absurd (Or.inr (Or.inr (Or.inl hmem))) (build_ok_facts h2).1
  · intro c hc
    have h2 : b.build = ((b.build).1, Except.ok c) := by rw [← hc]
    exact (build_ok_facts h2).2.1
  · intro hpv
    rcases hres : (b.build).2 with r | c
    · have h2 : b.build = ((b.build).1, Except.error r) := by rw [← hres]
      exact (build_err_facts h2).2.1
    · have h2 : b.build = ((b.build).1, Except.ok c) := by rw [← hres]
      exact absurd (Or.inr (Or.inr (Or.inr (Or.inr (Or.inr (Or.inr hpv))))))
        (build_ok_facts h2).1

/-- Example state for C8's witness: AHB prescale 32, which is not in the
valid discrete set. -/
def bEx8 : CFGRBuilder := constrainCfgr.set_ahb_prescale 32

/-- Witness for C8: AHB prescale 32 makes `build` abort, before any register
write. -/
theorem c8_witness :
    (∃ r, (bEx8.build).2 = Except.error r) ∧ (bEx8.build).1 = [] := by
  have h := c8_abort_iff_validation_fails bEx8
  exact ⟨h.1.mpr (Or.inl (by decide)), h.2.1 (by decide)⟩

/-- Claim C9 counterexample: for the representable input frequency
`freq = 4_294_967_295` (`u32::MAX`), the `u32` addition
`freq + 1_999_999` in `enable_pll` (`rcc.rs` line 204) wraps, so the stored
`m` is `0`, not the claimed `ceil(freq / 2_000_000) = 2148`. -/
theorem c9_counterexample :
    ((constrainCfgr.set_source (ClockSource.HSE 4294967295)).enable_pll 336 2 7).pll
      = some (0, 336, 2, 7)
    ∧ (0 : Nat) ≠ (4294967295 + 1999999) / 2000000 := by
  exact ⟨rfl, by decide⟩

/-- Claim C9 (amended): `enable_pll` stores `m = pllMOf` of the source *at
the moment of the call* — 8 for HSI and `((freq + 1_999_999) mod 2 ^ 32) /
2_000_000` for HSE, which equals the ceiling division
`(freq + 1_999_999) / 2_000_000` whenever the addition does not overflow —
and a later `set_source` leaves the stored coefficients untouched. -/
theorem c9_enable_pll_m_fixed_at_call :
    ∀ (b : CFGRBuilder) (n p q : Nat),
    ((b.enable_pll n p q).pll = some (pllMOf b.source, n, p, q))
    ∧ (∀ s, ((b.enable_pll n p q).set_source s).pll = (b.enable_pll n p q).pll)
    ∧ pllMOf ClockSource.HSI = 8
    ∧ (∀ f, f + 1999999 < u32Mod →
        pllMOf (ClockSource.HSE f) = (f + 1999999) / 2000000) := by
  intro b n p q
  refine ⟨?_, ?_, rfl, ?_⟩
  · cases hs : b.source <;> simp [CFGRBuilder.enable_pll, pllMOf, hs]
  · intro s; rfl
  · intro f hf
    simp [pllMOf, Nat.mod_eq_of_lt hf]

/-- Witness for C9's amended theorem: HSI stores `m = 8`; HSE 8 MHz gives
the ceiling `m = 4` (since `8_000_000 + 1_999_999 < 2 ^ 32`). -/
theorem c9_witness :
    ((constrainCfgr.enable_pll 336 2 7).pll = some (pllMOf constrainCfgr.source, 336, 2, 7))
    ∧ pllMOf (ClockSource.HSE 8000000) = (8000000 + 1999999) / 2000000 := by
  have h := c9_enable_pll_m_fixed_at_call constrainCfgr 336 2 7
  exact ⟨h.1, h.2.2.2 8000000 (by decide)⟩

/-- Claim C10 (confirmed): every CFGR write of `build` is a whole-register
write, so after a successful `build` the CFGR register holds only the
source-select code — all prescaler fields are back at their reset value 0 —
and already after the first APB prescaler write the earlier AHB prescaler
bits are gone. -/
theorem c10_final_cfgr_retains_only_sw :
    ∀ (b : CFGRBuilder) (tr : List WriteEvent) (c : Clocks),
    b.build = (tr, Except.ok c) →
    (regsAfter tr).cfgr = { hpre := 0, ppre1 := 0, ppre2 := 0, sw := b.swCode }
    ∧ (regsAfter (tr.take 2)).cfgr.hpre = 0 := by
  intro b tr c h
  obtain ⟨-, -, htr⟩ := build_ok_facts h
  subst htr
  unfold CFGRBuilder.successTrace
  rcases hp : b.pll with _ | ⟨m, n, p, q⟩ <;>
    simp [regsAfter, applyEvent, CFGR.reset, RegState.reset, CFGRBuilder.swCode, hp]

/-- Example state for C10's witness: nonzero AHB and APB1 prescaler codes
(`HPRE = 0b1001`, `PPRE1 = 0b100`), so the reset-to-zero outcome is
informative. -/
def bEx10 : CFGRBuilder := (constrainCfgr.set_ahb_prescale 4).set_apb1_prescale 2

/-- Witness for C10 at `bEx10`. -/
theorem c10_witness :
    (regsAfter ((bEx10.build).1)).cfgr
      = { hpre := 0, ppre1 := 0, ppre2 := 0, sw := bEx10.swCode }
    ∧ (regsAfter (((bEx10.build).1).take 2)).cfgr.hpre = 0 :=
  c10_final_cfgr_retains_only_sw bEx10 (bEx10.build).1
    { hclk := 4000000, pclk1 := 8000000, pclk2 := 16000000, ppre1 := 2, ppre2 := 1,
      sysclk := 16000000 } rfl

end Stm32Rcc
